import Mathlib

/-
Verification of the IntelliScaleSim backend service layer.

The definitions below are a shallow embedding of the Python source:
  backend/app/services/autoscaler_service.py
  backend/app/services/billing_service.py
  backend/app/services/docker_service.py
  backend/app/services/loadtest_service.py
  backend/app/api/routes_autoscaling.py

Python floats are modelled as rationals; timestamps are rationals
counting seconds; SQL tables are lists of rows; Python dict lookups
that can raise KeyError are modelled with Option; Python exceptions
caught by the surrounding try/except blocks are modelled by the
corresponding fallback value of the except branch.
-/

set_option maxRecDepth 10000

/-- Container status enum, models ContainerStatus in app/models/container.py. -/
inductive ContainerStatus
  | pending
  | running
  | stopped
  | error
deriving DecidableEq

/-- One row of the containers table (app/models/container.py, class Container).
Columns not read by the autoscaler or billing code are omitted.
`container_id` is the nullable engine handle (real Docker container id);
`port` is nullable. -/
structure Container where
  id : Nat
  user_id : Nat
  name : String
  image : Option String
  status : ContainerStatus
  port : Option Int
  parent_id : Option Nat
  container_id : Option String
  memory_limit : Int
  created_at : ℚ
deriving DecidableEq

/-- One row of the scaling_policies table (app/models/scaling_policy.py). -/
structure ScalingPolicy where
  id : Nat
  container_id : Nat
  user_id : Nat
  enabled : Bool
  scale_up_cpu_threshold : ℚ
  scale_up_memory_threshold : ℚ
  min_replicas : Nat
  max_replicas : Nat
  scale_down_cpu_threshold : ℚ
  scale_down_memory_threshold : ℚ
  cooldown_period : ℚ
  last_scaled_at : Option ℚ
deriving DecidableEq

/-- One row of the scaling_events table (app/models/scaling_policy.py). -/
structure ScalingEvent where
  policy_id : Nat
  container_id : Nat
  action : String
  trigger_metric : String
  metric_value : ℚ
  replica_count_before : Nat
  replica_count_after : Nat
deriving DecidableEq

/-- The metrics dict returned by AutoScalerService.get_container_metrics:
exactly the two keys cpu_percent and memory_percent. -/
structure Metrics where
  cpu_percent : ℚ
  memory_percent : ℚ
deriving DecidableEq

/-- Python dict subscript on the metrics dict: `metrics[key]` succeeds only
for the two keys present; any other key raises KeyError, modelled as none. -/
def metricsLookup (m : Metrics) (key : String) : Option ℚ :=
  if key = "cpu_percent" then some m.cpu_percent
  else if key = "memory_percent" then some m.memory_percent
  else none

/-- State of the scaling-relevant tables. `next_id` models the primary-key
autoincrement counter of the containers table. -/
structure ScalingDB where
  containers : List Container
  events : List ScalingEvent
  next_id : Nat
deriving DecidableEq

/-- The mapped attributes declared on the Container ORM class
(app/models/container.py 19-45).  parent_id is NOT among them: only the
alembic migration 4fca6056c0bf adds the database column, and nothing adds
the mapped attribute, so Container.parent_id raises AttributeError and
Container(..., parent_id=...) raises TypeError. -/
def container_orm_attributes : List String :=
  ["id", "user_id", "name", "image", "status", "port", "cpu_limit", "memory_limit",
   "environment_vars", "deployment_type", "source_url", "build_status", "build_logs",
   "container_id", "localhost_url", "public_url", "created_at", "updated_at",
   "started_at", "stopped_at"]

/-- Python attribute access Container.<name> on the ORM class: none models
the AttributeError raised when the class does not declare the name. -/
def container_class_attr (name : String) : Option String :=
  if name ∈ container_orm_attributes then some name else none

/-- The Container(...) constructor accepts exactly the mapped attributes as
keyword arguments; any other keyword raises TypeError. -/
def container_init_kwargs_valid (kwargs : List String) : Bool :=
  kwargs.all (fun k => (container_class_attr k).isSome)

/-- AutoScalerService.get_current_replica_count (autoscaler_service.py 24-37).
Building the query filter at line 28 evaluates Container.parent_id on the
ORM class, which declares no such attribute, so the call raises
AttributeError (none) before any row is read.  The count the source text
would compute — running children with this parent_id, plus 1 if the
parent row itself is running — follows in the unreachable some-branch. -/
def get_current_replica_count (db : ScalingDB) (container_id : Nat) : Option Nat :=
  match container_class_attr "parent_id" with
  | none => none
  | some _ =>
    let replicas := (db.containers.filter (fun c =>
      decide (c.parent_id = some container_id ∧ c.status = ContainerStatus.running))).length
    match db.containers.find? (fun c => decide (c.id = container_id)) with
    | some parent =>
        some (if parent.status = ContainerStatus.running then replicas + 1 else replicas)
    | none => some replicas

/-- The cooldown test of should_scale_up / should_scale_down
(autoscaler_service.py 79-82 and 103-106): true when last_scaled_at is set
and the elapsed seconds are still below cooldown_period. -/
def cooldown_active (p : ScalingPolicy) (now : ℚ) : Bool :=
  match p.last_scaled_at with
  | none => false
  | some t => decide (now - t < p.cooldown_period)

/-- AutoScalerService.should_scale_up (autoscaler_service.py 70-92).
Returns the decision together with the reason string the code returns. -/
def should_scale_up (p : ScalingPolicy) (m : Metrics) (current_replicas : Nat)
    (now : ℚ) : Bool × String :=
  if !p.enabled then (false, "policy_disabled")
  else if p.max_replicas ≤ current_replicas then (false, "max_replicas_reached")
  else if cooldown_active p now then (false, "cooldown_active")
  else if p.scale_up_cpu_threshold ≤ m.cpu_percent then (true, "cpu")
  else if p.scale_up_memory_threshold ≤ m.memory_percent then (true, "memory")
  else (false, "thresholds_not_met")

/-- AutoScalerService.should_scale_down (autoscaler_service.py 94-113). -/
def should_scale_down (p : ScalingPolicy) (m : Metrics) (current_replicas : Nat)
    (now : ℚ) : Bool × String :=
  if !p.enabled then (false, "policy_disabled")
  else if current_replicas ≤ p.min_replicas then (false, "min_replicas_reached")
  else if cooldown_active p now then (false, "cooldown_active")
  else if m.cpu_percent < p.scale_down_cpu_threshold ∧
          m.memory_percent < p.scale_down_memory_threshold then (true, "both_low")
  else (false, "thresholds_not_met")

/-- AutoScalerService.scale_up (autoscaler_service.py 115-163).
The call to get_current_replica_count at line 118 raises AttributeError
(missing Container.parent_id); the except branch at 160-163 rolls back
and returns False, so the function never creates anything.  The rest of
the source text is translated in the unreachable branches: a missing
parent returns False; a NULL parent port makes
`parent.port + current_replicas` raise TypeError; and the constructor
call Container(..., parent_id=...) at lines 129-136 would itself raise
TypeError, parent_id not being a mapped attribute. -/
def scale_up (db : ScalingDB) (policy : ScalingPolicy) (trigger_metric : String)
    (metric_value : ℚ) (now : ℚ) : ScalingDB × ScalingPolicy × Bool :=
  match get_current_replica_count db policy.container_id with
  | none => (db, policy, false)
  | some current_replicas =>
  match db.containers.find? (fun c => decide (c.id = policy.container_id)) with
  | none => (db, policy, false)
  | some parent =>
    match parent.port with
    | none => (db, policy, false)
    | some pport =>
      if !container_init_kwargs_valid
          ["name", "image", "port", "status", "user_id", "parent_id"] then
        (db, policy, false)
      else
      let new_replica : Container :=
        { id := db.next_id
          user_id := parent.user_id
          name := parent.name ++ "-replica-" ++ toString current_replicas
          image := parent.image
          status := ContainerStatus.pending
          port := some (pport + current_replicas)
          parent_id := some parent.id
          container_id := none
          memory_limit := parent.memory_limit
          created_at := now }
      let event : ScalingEvent :=
        { policy_id := policy.id
          container_id := policy.container_id
          action := "scale_up"
          trigger_metric := trigger_metric
          metric_value := metric_value
          replica_count_before := current_replicas
          replica_count_after := current_replicas + 1 }
      ({ containers := db.containers ++ [new_replica]
         events := db.events ++ [event]
         next_id := db.next_id + 1 },
       { policy with last_scaled_at := some now },
       true)

/-- The query of AutoScalerService.scale_down (autoscaler_service.py 171-174):
running children of the container, ordered by created_at descending, first
row.  Building the filter evaluates Container.parent_id, so the query
raises AttributeError (outer none); the scan the source text describes —
the row with the greatest created_at, first such row on ties — is in the
unreachable some-branch. -/
def newest_running_replica (db : ScalingDB) (container_id : Nat) :
    Option (Option Container) :=
  match container_class_attr "parent_id" with
  | none => none
  | some _ =>
    some ((db.containers.filter (fun c =>
      decide (c.parent_id = some container_id ∧ c.status = ContainerStatus.running))).foldl
      (fun best c =>
        match best with
        | none => some c
        | some b => if b.created_at < c.created_at then some c else some b)
      none)

/-- Marks one container row stopped, by id (the ORM attribute assignment
`replica.status = 'stopped'`). -/
def mark_stopped (containers : List Container) (cid : Nat) : List Container :=
  containers.map (fun c => if c.id = cid then { c with status := ContainerStatus.stopped } else c)

/-- AutoScalerService.scale_down (autoscaler_service.py 165-207).
The call to get_current_replica_count at line 168 raises AttributeError
(missing Container.parent_id); the except branch at 204-207 rolls back
and returns False, so no replica is ever stopped and no event appended.
The query at 171-174 would raise the same error.  The remaining source
text is translated in the unreachable branches. -/
def scale_down (db : ScalingDB) (policy : ScalingPolicy) (trigger_metric : String)
    (metric_value : ℚ) (now : ℚ) : ScalingDB × ScalingPolicy × Bool :=
  match get_current_replica_count db policy.container_id with
  | none => (db, policy, false)
  | some current_replicas =>
  match newest_running_replica db policy.container_id with
  | none => (db, policy, false)
  | some none => (db, policy, false)
  | some (some replica) =>
      let event : ScalingEvent :=
        { policy_id := policy.id
          container_id := policy.container_id
          action := "scale_down"
          trigger_metric := trigger_metric
          metric_value := metric_value
          replica_count_before := current_replicas
          replica_count_after := current_replicas - 1 }
      ({ containers := mark_stopped db.containers replica.id
         events := db.events ++ [event]
         next_id := db.next_id },
       { policy with last_scaled_at := some now },
       true)

/-- AutoScalerService.evaluate_policy (autoscaler_service.py 209-237).
`metrics` is the result of get_container_metrics (None when unavailable).
Line 218 calls get_current_replica_count, which raises AttributeError
(the Container ORM class has no parent_id attribute); the except branch
at line 236 swallows it and the function returns with no database
change, so the decision code at lines 220-232 is never reached.  That
unreachable code is still translated below; in it, the scale-up branch
would die formatting the log message at line 223, whose f-string
subscripts the metrics dict with the bare reason string ("cpu" or
"memory"), keys the dict does not have (KeyError, also swallowed at
line 236), before scale_up could run; line 224 would then read
`metrics[f"\x7breason\x7d_percent"]`. -/
def evaluate_policy (db : ScalingDB) (policy : ScalingPolicy)
    (metrics : Option Metrics) (now : ℚ) : ScalingDB × ScalingPolicy :=
  match metrics with
  | none => (db, policy)
  | some m =>
    match get_current_replica_count db policy.container_id with
    | none => (db, policy)
    | some current_replicas =>
    let up := should_scale_up policy m current_replicas now
    if up.1 then
      match metricsLookup m up.2 with
      | none => (db, policy)
      | some _ =>
        match metricsLookup m (up.2 ++ "_percent") with
        | none => (db, policy)
        | some v =>
            let r := scale_up db policy up.2 v now
            (r.1, r.2.1)
    else
      let down := should_scale_down policy m current_replicas now
      if down.1 then
        let r := scale_down db policy "both_low" (min m.cpu_percent m.memory_percent) now
        (r.1, r.2.1)
      else (db, policy)

/-- The policy selection of AutoScalerService.evaluate_all_policies
(autoscaler_service.py 242): all enabled policies, with no filter on the
owning user. -/
def policies_selected_for_evaluation (policies : List ScalingPolicy) : List ScalingPolicy :=
  policies.filter (fun p => p.enabled)

/-- AutoScalerService.evaluate_all_policies (autoscaler_service.py 239-249):
evaluate every enabled policy in sequence.  `metricsOf` gives the sampled
metrics per container id (get_container_metrics). -/
def evaluate_all_policies (db : ScalingDB) (policies : List ScalingPolicy)
    (metricsOf : Nat → Option Metrics) (now : ℚ) : ScalingDB :=
  (policies_selected_for_evaluation policies).foldl
    (fun s p => (evaluate_policy s p (metricsOf p.container_id) now).1) db

/-- Response body of POST /autoscaling/evaluate-now. -/
structure EvaluateNowResponse where
  status : String
  message : String
deriving DecidableEq

/-- evaluate_policies_now (routes_autoscaling.py 177-206): builds an
AutoScalerService on the shared session and calls evaluate_all_policies;
the authenticated `current_user_id` is never passed to the service.
evaluate_all_policies catches every exception, so the success payload is
always returned. -/
def evaluate_policies_now (db : ScalingDB) (policies : List ScalingPolicy)
    (metricsOf : Nat → Option Metrics) (now : ℚ) (current_user_id : Nat) :
    ScalingDB × EvaluateNowResponse :=
  (evaluate_all_policies db policies metricsOf now,
   { status := "success"
     message := "Policy evaluation completed. Check scaling events." })

/-- Overall decision order of evaluate_policy (autoscaler_service.py
220-232): scale_up is consulted first, then scale_down, else no action. -/
inductive ScalingDecision
  | scaleUp (trigger : String)
  | scaleDown (trigger : String)
  | noAction
deriving DecidableEq

/-- The decision computed by one evaluation pass for one policy, before any
action is attempted (autoscaler_service.py 220-232). -/
def decide_action (p : ScalingPolicy) (m : Metrics) (r : Nat) (now : ℚ) : ScalingDecision :=
  if (should_scale_up p m r now).1 then ScalingDecision.scaleUp (should_scale_up p m r now).2
  else if (should_scale_down p m r now).1 then ScalingDecision.scaleDown "both_low"
  else ScalingDecision.noAction

/-- Modelled from the spec: the cooldown as the spec words it — the elapsed
time since last_scaled_at is at least cooldown_seconds, a null
last_scaled_at always passing. -/
def spec_cooldown_elapsed (p : ScalingPolicy) (now : ℚ) : Prop :=
  match p.last_scaled_at with
  | none => True
  | some t => p.cooldown_period ≤ now - t

/-- Modelled from the spec: the scale-up condition as the spec words it. -/
def spec_scale_up_condition (p : ScalingPolicy) (m : Metrics) (r : Nat) (now : ℚ) : Prop :=
  p.enabled = true ∧ r < p.max_replicas ∧ spec_cooldown_elapsed p now ∧
    (p.scale_up_cpu_threshold ≤ m.cpu_percent ∨ p.scale_up_memory_threshold ≤ m.memory_percent)

/-- Modelled from the spec: the scale-down condition as the spec words it. -/
def spec_scale_down_condition (p : ScalingPolicy) (m : Metrics) (r : Nat) (now : ℚ) : Prop :=
  p.enabled = true ∧ p.min_replicas < r ∧ spec_cooldown_elapsed p now ∧
    m.cpu_percent < p.scale_down_cpu_threshold ∧ m.memory_percent < p.scale_down_memory_threshold


/-- In-memory dispatch state of one load test run
(loadtest_service.py _run_test, 66-158): `created` counts
asyncio.create_task calls of the dispatcher loop (line 136), `sent` the
requests that acquired the semaphore and incremented
test.requests_sent (line 99), `active` the results["active"] gauge,
`completed`/`failed` the results counters. -/
structure LTState where
  created : Nat
  sent : Nat
  active : Nat
  completed : Nat
  failed : Nat
deriving DecidableEq

/-- Atomic scheduler events of the load test: one dispatcher-loop
iteration creating a task, one task acquiring the concurrency semaphore
(which also increments active and requests_sent, lines 97-99), and one
task finishing its request with success (line 110) or failure
(lines 114-121), releasing the semaphore (line 124). -/
inductive LTEvent
  | dispatch
  | acquire
  | finishOk
  | finishFail
deriving DecidableEq

/-- One scheduler step.  N = test.total_requests bounds the dispatcher
loop (line 129); C = test.concurrency is the semaphore bound (line 76);
a task can acquire only after it was created and while fewer than C are
active; a finish event needs a request in flight.  Steps whose guard
does not hold leave the state unchanged (they cannot occur). -/
def lt_step (N C : Nat) (s : LTState) : LTEvent → LTState
  | LTEvent.dispatch =>
      if s.created < N then { s with created := s.created + 1 } else s
  | LTEvent.acquire =>
      if s.sent < s.created ∧ s.active < C then
        { s with sent := s.sent + 1, active := s.active + 1 } else s
  | LTEvent.finishOk =>
      if 0 < s.active then
        { s with completed := s.completed + 1, active := s.active - 1 } else s
  | LTEvent.finishFail =>
      if 0 < s.active then
        { s with failed := s.failed + 1, active := s.active - 1 } else s

/-- All counters start at zero (results dict and test.requests_sent = 0,
lines 77-84). -/
def lt_init : LTState := ⟨0, 0, 0, 0, 0⟩

/-- The state after an arbitrary interleaving of scheduler events.  The
metric sampler (_collect_metrics) and _save_final_stats copy
results["completed"], results["failed"] and test.requests_sent at such a
state, so every persisted snapshot and the terminal row show the
counters of some reachable state. -/
def lt_run (N C : Nat) (events : List LTEvent) : LTState :=
  events.foldl (lt_step N C) lt_init

/-- The inductive invariant of the dispatch state machine. -/
def lt_invariant (N C : Nat) (s : LTState) : Prop :=
  s.completed + s.failed + s.active = s.sent ∧ s.sent ≤ s.created ∧
    s.created ≤ N ∧ s.active ≤ C

/-- Cloud providers (billing_models.py, PricingProvider). -/
inductive PricingProvider
  | aws
  | gcp
  | azure
deriving DecidableEq

/-- `provider.value` of the enum. -/
def providerValue : PricingProvider → String
  | PricingProvider.aws => "aws"
  | PricingProvider.gcp => "gcp"
  | PricingProvider.azure => "azure"

/-- One row of the pricing_models table (billing_models.py). -/
structure PricingModel where
  provider_name : PricingProvider
  cpu_per_hour : ℚ
  memory_per_gb_hour : ℚ
  storage_per_gb_month : ℚ
  storage_ssd_per_gb_month : Option ℚ
  storage_hdd_per_gb_month : Option ℚ
deriving DecidableEq

/-- The hardcoded DEFAULT_PRICING table (billing_service.py 19-41). -/
def DEFAULT_PRICING : PricingProvider → PricingModel
  | PricingProvider.aws =>
      { provider_name := PricingProvider.aws
        cpu_per_hour := 0.05
        memory_per_gb_hour := 0.01
        storage_per_gb_month := 0.08
        storage_ssd_per_gb_month := some 0.08
        storage_hdd_per_gb_month := some 0.045 }
  | PricingProvider.gcp =>
      { provider_name := PricingProvider.gcp
        cpu_per_hour := 0.0335
        memory_per_gb_hour := 0.0045
        storage_per_gb_month := 0.10
        storage_ssd_per_gb_month := some 0.17
        storage_hdd_per_gb_month := some 0.04 }
  | PricingProvider.azure =>
      { provider_name := PricingProvider.azure
        cpu_per_hour := 0.048
        memory_per_gb_hour := 0.0062
        storage_per_gb_month := 0.10
        storage_ssd_per_gb_month := some 0.143
        storage_hdd_per_gb_month := some 0.05 }

/-- BillingService.get_pricing_model (billing_service.py 72-76). -/
def get_pricing_model (table : List PricingModel) (provider : PricingProvider) :
    Option PricingModel :=
  table.find? (fun r => decide (r.provider_name = provider))

/-- Python round() ties-to-even on the rational value. -/
def roundHalfEven (x : ℚ) : ℤ :=
  if x - ⌊x⌋ < 1 / 2 then ⌊x⌋
  else if 1 / 2 < x - ⌊x⌋ then ⌊x⌋ + 1
  else if 2 ∣ ⌊x⌋ then ⌊x⌋ else ⌊x⌋ + 1

/-- Python round(x, 4). -/
def round4 (x : ℚ) : ℚ := (roundHalfEven (x * 10000) : ℚ) / 10000

/-- The cost-breakdown dict returned by BillingService.calculate_cost. -/
structure CostBreakdown where
  cpu_cost : ℚ
  memory_cost : ℚ
  storage_cost : ℚ
  total_cost : ℚ
  provider : String
deriving DecidableEq

/-- The rate triple calculate_cost uses (billing_service.py 180-190): the
stored PricingModel row for the provider, else the DEFAULT_PRICING entry. -/
def effective_rates (table : List PricingModel) (provider : PricingProvider) : ℚ × ℚ × ℚ :=
  match get_pricing_model table provider with
  | none =>
      ((DEFAULT_PRICING provider).cpu_per_hour,
       (DEFAULT_PRICING provider).memory_per_gb_hour,
       (DEFAULT_PRICING provider).storage_per_gb_month)
  | some pricing =>
      (pricing.cpu_per_hour, pricing.memory_per_gb_hour, pricing.storage_per_gb_month)

/-- BillingService.calculate_cost (billing_service.py 159-209). -/
def calculate_cost (table : List PricingModel) (cpu_cores memory_gb storage_gb duration_hours : ℚ)
    (provider : PricingProvider) : CostBreakdown :=
  let rates := effective_rates table provider
  let cpu_cost := cpu_cores * duration_hours * rates.1
  let memory_cost := memory_gb * duration_hours * rates.2.1
  let month_fraction := duration_hours / 730
  let storage_cost := storage_gb * month_fraction * rates.2.2
  let total_cost := cpu_cost + memory_cost + storage_cost
  { cpu_cost := round4 cpu_cost
    memory_cost := round4 memory_cost
    storage_cost := round4 storage_cost
    total_cost := round4 total_cost
    provider := providerValue provider }

/-- One row of the resource_usage table (billing_models.py 34-53).
storage_mb is never read by the billing code and is omitted. -/
structure ResourceUsage where
  container_id : Nat
  timestamp : ℚ
  cpu_percent : ℚ
  cpu_cores_used : Option ℚ
  memory_mb : ℚ
  memory_gb : Option ℚ
  storage_gb : Option ℚ
  network_rx_bytes : ℚ
  network_tx_bytes : ℚ
deriving DecidableEq

/-- Timestamp order on usage rows (the order_by of get_usage_history). -/
def tsLE (a b : ResourceUsage) : Prop := a.timestamp ≤ b.timestamp

instance : DecidableRel tsLE :=
  fun a b => inferInstanceAs (Decidable (a.timestamp ≤ b.timestamp))

instance : IsTotal ResourceUsage tsLE := ⟨fun a b => le_total a.timestamp b.timestamp⟩

instance : IsTrans ResourceUsage tsLE := ⟨fun _ _ _ h1 h2 => le_trans h1 h2⟩

/-- BillingService.get_usage_history (billing_service.py 141-157): rows of
the container with timestamp in [start_time, end_time], ordered by
timestamp ascending. -/
def get_usage_history (usage : List ResourceUsage) (container_id : Nat)
    (start_time end_time : ℚ) : List ResourceUsage :=
  List.insertionSort tsLE (usage.filter (fun u =>
    decide (u.container_id = container_id ∧ start_time ≤ u.timestamp ∧ u.timestamp ≤ end_time)))

/-- Return value of BillingService.calculate_real_time_billing: the error
payload dict, or the payload carrying average_usage and costs. -/
inductive BillingOutcome
  | err (message : String) (container_id : Nat)
  | ok (avg_cpu_cores avg_memory_gb storage_gb : ℚ) (costs : CostBreakdown)
deriving DecidableEq

/-- BillingService.calculate_real_time_billing (billing_service.py 211-254).
The window is [now - hours_back, now] (timedelta(hours=hours_back), with
timestamps in seconds); nullable columns read with `or 0`; the storage
comes from the last row of the ascending-ordered window. -/
def calculate_real_time_billing (usage : List ResourceUsage) (table : List PricingModel)
    (container_id : Nat) (hours_back : ℚ) (provider : PricingProvider) (now : ℚ) :
    BillingOutcome :=
  let start_time := now - hours_back * 3600
  let records := get_usage_history usage container_id start_time now
  match records.getLast? with
  | none => BillingOutcome.err "No usage data found for this time period" container_id
  | some last =>
      let avg_cpu_cores := (records.map (fun u => u.cpu_cores_used.getD 0)).sum / records.length
      let avg_memory_gb := (records.map (fun u => u.memory_gb.getD 0)).sum / records.length
      let storage_gb := last.storage_gb.getD 0
      BillingOutcome.ok avg_cpu_cores avg_memory_gb storage_gb
        (calculate_cost table avg_cpu_cores avg_memory_gb storage_gb hours_back provider)

/-- Result dict of DockerService.get_container_stats (sync, docker_service.py
352-355 and 358): keys cpu_percent and memory_mb. -/
structure SyncStats where
  cpu_percent : ℚ
  memory_mb : ℚ
deriving DecidableEq

/-- Python str.rstrip(c): drop every trailing occurrence of the char. -/
def rstripChar (s : String) (c : Char) : String :=
  String.mk ((s.data.reverse.dropWhile (fun d => d = c)).reverse)

/-- Python str.strip(): drop leading and trailing whitespace. -/
def pyStrip (s : String) : String :=
  String.mk (((s.data.dropWhile Char.isWhitespace).reverse.dropWhile
    Char.isWhitespace).reverse)

/-- Split a char list at every occurrence of one char (Python
str.split with a one-char separator). -/
def splitOnChar (c : Char) : List Char → List (List Char)
  | [] => [[]]
  | d :: rest =>
    let r := splitOnChar c rest
    if d = c then [] :: r else (d :: r.headD []) :: r.tail

/-- The part of the list before the first occurrence of sep, with the
remainder; none when sep does not occur. -/
def splitFirst (sep : List Char) : List Char → Option (List Char × List Char)
  | [] => none
  | c :: rest =>
    if sep.isPrefixOf (c :: rest) then some ([], (c :: rest).drop sep.length)
    else (splitFirst sep rest).map (fun p => (c :: p.1, p.2))

/-- Python s.split(sep)[0]: everything before the first occurrence of sep
(the whole string when sep is absent). -/
def pySplitHeadStr (s sep : String) : String :=
  match splitFirst sep.data s.data with
  | none => s
  | some p => String.mk p.1

/-- Python s.replace(old, ""), removing every occurrence of a non-empty
old; the fuel bounds recursion and never runs out when called with the
list length. -/
def removeAllAux (old : List Char) : Nat → List Char → List Char
  | 0, l => l
  | _ + 1, [] => []
  | fuel + 1, c :: rest =>
    if old ≠ [] ∧ old.isPrefixOf (c :: rest) then
      removeAllAux old fuel ((c :: rest).drop old.length)
    else c :: removeAllAux old fuel rest

/-- Python s.replace(old, ""). -/
def pyReplaceAll (s old : String) : String :=
  String.mk (removeAllAux old.data s.data.length s.data)

/-- Substring containment over char lists (Python `needle in hay`). -/
def listContainsSub (needle : List Char) : List Char → Bool
  | [] => needle.isEmpty
  | c :: rest => needle.isPrefixOf (c :: rest) || listContainsSub needle rest

/-- Python `needle in hay` on strings. -/
def strContainsSub (hay needle : String) : Bool :=
  listContainsSub needle.data hay.data

/-- dict.get(key, default) on a string-valued JSON object. -/
def dictGet (d : List (String × String)) (key default_value : String) : String :=
  match d.find? (fun kv => decide (kv.1 = key)) with
  | some kv => kv.2
  | none => default_value

/-- Char class [0-?] of the ANSI regex (docker_service.py 322). -/
def isCsiParam (c : Char) : Bool := decide ('0' ≤ c ∧ c ≤ '?')

/-- Char class of the intermediate bytes 0x20..0x2F of the ANSI regex. -/
def isCsiInter (c : Char) : Bool := decide (' ' ≤ c ∧ c ≤ '/')

/-- Char class [@-~] of the ANSI regex. -/
def isCsiFinal (c : Char) : Bool := decide ('@' ≤ c ∧ c ≤ '~')

/-- Char class [@-Z\\-_] of the ANSI regex. -/
def isEscSingle (c : Char) : Bool :=
  decide (('@' ≤ c ∧ c ≤ 'Z') ∨ ('\\' ≤ c ∧ c ≤ '_'))

/-- After an ESC char, consume the rest of one ANSI escape sequence per the
regex at docker_service.py 322; none when the regex does not match here. -/
def matchEscape : List Char → Option (List Char)
  | [] => none
  | c :: rest =>
    if c = '\x5b' then
      let r1 := rest.dropWhile isCsiParam
      let r2 := r1.dropWhile isCsiInter
      match r2 with
      | [] => none
      | f :: r3 => if isCsiFinal f then some r3 else none
    else if isEscSingle c then some rest
    else none

/-- re.sub of the ANSI pattern with "": left-to-right scan deleting each
match.  The fuel argument bounds recursion; called with the list length,
it never runs out because every step consumes at least one char. -/
def stripAnsiAux : Nat → List Char → List Char
  | 0, l => l
  | _ + 1, [] => []
  | fuel + 1, c :: rest =>
    if c = '\x1B' then
      match matchEscape rest with
      | some r => stripAnsiAux fuel r
      | none => c :: stripAnsiAux fuel rest
    else c :: stripAnsiAux fuel rest

/-- `ansi_escape.sub('', last_line)` (docker_service.py 323). -/
def stripAnsi (s : String) : String :=
  String.mk (stripAnsiAux s.data.length s.data)

/-- Index of the first occurrence of a char (Python str.find). -/
def find_idx (c : Char) : List Char → Option Nat
  | [] => none
  | d :: rest => if d = c then some 0 else (find_idx c rest).map (fun i => i + 1)

/-- Index of the last occurrence of a char (Python str.rfind). -/
def rfind_idx (c : Char) (l : List Char) : Option Nat :=
  (find_idx c l.reverse).map (fun i => l.length - 1 - i)

/-- The brace-window cleanup (docker_service.py 327-330): when both an
opening and a closing brace exist, keep clean_line[start:end+1]. -/
def brace_slice (l : List Char) : List Char :=
  match find_idx '\x7b' l, rfind_idx '\x7d' l with
  | some s, some e => (l.drop s).take (e + 1 - s)
  | _, _ => l

/-- output.split('\n'), each line stripped, empties dropped
(docker_service.py 317). -/
def nonempty_stripped_lines (s : String) : List String :=
  (((splitOnChar '\n' s.data).map String.mk).map pyStrip).filter (fun l => decide (l ≠ ""))

/-- The memory-string branch ladder (docker_service.py 342-350); pf models
Python float() on a string, none meaning ValueError.  A string with no
recognized unit falls through to 0.0 without error. -/
def parse_mem (pf : String → Option ℚ) (mem_usage_str : String) : Option ℚ :=
  if strContainsSub mem_usage_str "GiB" then
    (pf (pyReplaceAll mem_usage_str "GiB")).map (fun x => x * 1024)
  else if strContainsSub mem_usage_str "MiB" then
    pf (pyReplaceAll mem_usage_str "MiB")
  else if strContainsSub mem_usage_str "kB" then
    (pf (pyReplaceAll mem_usage_str "kB")).map (fun x => x / 1024)
  else if strContainsSub mem_usage_str "B" then
    (pf (pyReplaceAll mem_usage_str "B")).map (fun x => x / (1024 * 1024))
  else some 0

/-- The try-block of DockerService.get_container_stats (docker_service.py
307-355).  jl models json.loads restricted to the string-valued objects the
code then reads; none covers a parse error or any shape on which the
subsequent attribute access raises.  A none result models an exception
reaching the except clause. -/
def get_container_stats_body (jl : String → Option (List (String × String)))
    (pf : String → Option ℚ) (stdout : String) : Option SyncStats :=
  let output := pyStrip stdout
  if output = "" then some ⟨0, 0⟩
  else
    match (nonempty_stripped_lines output).getLast? with
    | none => none
    | some last_line =>
      let ansi_clean := stripAnsi last_line
      let clean_line := String.mk (brace_slice ansi_clean.toList)
      match jl clean_line with
      | none => none
      | some stats_json =>
        let cpu_str := rstripChar (dictGet stats_json "CPUPerc" "0.00%") '%'
        match (if cpu_str = "" then some (0 : ℚ) else pf cpu_str) with
        | none => none
        | some cpu_percent =>
          let mem_usage_str :=
            pySplitHeadStr (dictGet stats_json "MemUsage" "0MiB / 0MiB") " / "
          match parse_mem pf mem_usage_str with
          | none => none
          | some memory_mb => some ⟨cpu_percent, memory_mb⟩

/-- DockerService.get_container_stats (docker_service.py 303-358): the try
body, with the except clause (356-358) turning any exception into the
zero-valued dict. -/
def get_container_stats (jl : String → Option (List (String × String)))
    (pf : String → Option ℚ) (stdout : String) : SyncStats :=
  match get_container_stats_body jl pf stdout with
  | some r => r
  | none => ⟨0, 0⟩

/-- The dict DockerService.get_container_stats_async returns on success
(docker_service.py 294-297); its failure branches (276, 301) return the
same two keys with zeros.  In every case the keys are exactly
cpu_percent and memory_usage_mb. -/
def get_container_stats_async_result (cpu_percent memory_usage_mb : ℚ) :
    List (String × ℚ) :=
  [("cpu_percent", cpu_percent), ("memory_usage_mb", memory_usage_mb)]

/-- dict.get(key, default) on a number-valued dict. -/
def qDictGet (d : List (String × ℚ)) (key : String) (default_value : ℚ) : ℚ :=
  match d.find? (fun kv => decide (kv.1 = key)) with
  | some kv => kv.2
  | none => default_value

/-- The metrics dict built by BillingService.collect_container_metrics
(billing_service.py 106-115), minus the timestamp. -/
structure CollectedMetrics where
  cpu_percent : ℚ
  cpu_cores_used : ℚ
  memory_mb : ℚ
  memory_gb : ℚ
  storage_gb : ℚ
  network_rx_bytes : ℚ
  network_tx_bytes : ℚ
deriving DecidableEq

/-- BillingService.collect_container_metrics (billing_service.py 78-121)
given the stats dict the driver returned.  The status gate checks that
"running" occurs in str(container.status).lower(), which among the four
statuses holds exactly for running; a missing engine handle also skips.
Note line 96 reads key "memory_mb" with default 0.0. -/
def collect_container_metrics (c : Container) (stats : List (String × ℚ)) :
    Option CollectedMetrics :=
  if c.container_id = none ∨ c.status ≠ ContainerStatus.running then none
  else if stats.isEmpty then none
  else
    let cpu_percent := qDictGet stats "cpu_percent" 0
    let cpu_cores_used := cpu_percent / 100
    let memory_mb := qDictGet stats "memory_mb" 0
    let memory_gb := memory_mb / 1024
    let network_rx := qDictGet stats "network_rx_bytes" 0
    let network_tx := qDictGet stats "network_tx_bytes" 0
    let storage_gb := (c.memory_limit : ℚ) / 1024
    some
      { cpu_percent := cpu_percent
        cpu_cores_used := cpu_cores_used
        memory_mb := memory_mb
        memory_gb := memory_gb
        storage_gb := storage_gb
        network_rx_bytes := network_rx
        network_tx_bytes := network_tx }

/-- BillingService.save_resource_usage (billing_service.py 123-139): the
ResourceUsage row persisted from a collected metrics dict. -/
def save_resource_usage (container_id : Nat) (timestamp : ℚ) (m : CollectedMetrics) :
    ResourceUsage :=
  { container_id := container_id
    timestamp := timestamp
    cpu_percent := m.cpu_percent
    cpu_cores_used := some m.cpu_cores_used
    memory_mb := m.memory_mb
    memory_gb := some m.memory_gb
    storage_gb := some m.storage_gb
    network_rx_bytes := m.network_rx_bytes
    network_tx_bytes := m.network_tx_bytes }

/-- Modelled from the spec: ports are globally unique across container
rows when non-null. -/
def spec_ports_unique (containers : List Container) : Prop :=
  (containers.filterMap (fun c => c.port)).Nodup

/-- Concrete running parent container used by witnesses. -/
def witnessParent : Container :=
  { id := 1
    user_id := 1
    name := "web"
    image := some "nginx:latest"
    status := ContainerStatus.running
    port := some 3000
    parent_id := none
    container_id := none
    memory_limit := 512
    created_at := 0 }

/-- Concrete enabled policy used by witnesses. -/
def witnessPolicy : ScalingPolicy :=
  { id := 1
    container_id := 1
    user_id := 1
    enabled := true
    scale_up_cpu_threshold := 80
    scale_up_memory_threshold := 80
    min_replicas := 1
    max_replicas := 3
    scale_down_cpu_threshold := 30
    scale_down_memory_threshold := 30
    cooldown_period := 300
    last_scaled_at := none }

/-- Concrete database used by witnesses. -/
def witnessDB : ScalingDB :=
  { containers := [witnessParent], events := [], next_id := 2 }

/-- Concrete metrics above the scale-up cpu threshold. -/
def witnessMetrics : Metrics := { cpu_percent := 90, memory_percent := 50 }

/-- A second user's running parent container. -/
def otherUserParent : Container :=
  { id := 2
    user_id := 2
    name := "api"
    image := some "redis:7"
    status := ContainerStatus.running
    port := some 3100
    parent_id := none
    container_id := none
    memory_limit := 512
    created_at := 0 }

/-- A running replica of the second user's container. -/
def otherUserReplica : Container :=
  { id := 3
    user_id := 2
    name := "api-replica-1"
    image := some "redis:7"
    status := ContainerStatus.running
    port := some 3101
    parent_id := some 2
    container_id := none
    memory_limit := 512
    created_at := 10 }

/-- The second user's enabled policy. -/
def otherUserPolicy : ScalingPolicy :=
  { id := 2
    container_id := 2
    user_id := 2
    enabled := true
    scale_up_cpu_threshold := 80
    scale_up_memory_threshold := 80
    min_replicas := 1
    max_replicas := 3
    scale_down_cpu_threshold := 30
    scale_down_memory_threshold := 30
    cooldown_period := 300
    last_scaled_at := none }

/-- Database holding containers of users 1 and 2. -/
def multiUserDB : ScalingDB :=
  { containers := [witnessParent, otherUserParent, otherUserReplica]
    events := []
    next_id := 4 }

/-- Sampled metrics: low usage for container 2, none for the rest. -/
def multiUserMetricsOf : Nat → Option Metrics :=
  fun cid => if cid = 2 then some { cpu_percent := 5, memory_percent := 5 } else none

/-- A running container with an engine handle, as the billing harvester
selects them. -/
def harvestedContainer : Container :=
  { id := 9
    user_id := 1
    name := "svc"
    image := some "img:latest"
    status := ContainerStatus.running
    port := some 3200
    parent_id := none
    container_id := some "abc123"
    memory_limit := 512
    created_at := 0 }



/-- A usage sample inside the witness window. -/
def usageRow1 : ResourceUsage :=
  { container_id := 7
    timestamp := 1000
    cpu_percent := 50
    cpu_cores_used := some 1
    memory_mb := 256
    memory_gb := some 2
    storage_gb := some 5
    network_rx_bytes := 0
    network_tx_bytes := 0 }

/-- A later usage sample inside the witness window. -/
def usageRow2 : ResourceUsage :=
  { container_id := 7
    timestamp := 2000
    cpu_percent := 30
    cpu_cores_used := some 3
    memory_mb := 512
    memory_gb := some 4
    storage_gb := some 9
    network_rx_bytes := 0
    network_tx_bytes := 0 }


theorem cooldown_active_false_iff (p : ScalingPolicy) (now : ℚ) :
    cooldown_active p now = false ↔ spec_cooldown_elapsed p now := by
  cases h : p.last_scaled_at with
  | none => simp [cooldown_active, spec_cooldown_elapsed, h]
  | some t => simp [cooldown_active, spec_cooldown_elapsed, h, not_lt]

theorem should_scale_up_cases (p : ScalingPolicy) (m : Metrics) (r : Nat) (now : ℚ) :
    (should_scale_up p m r now = (true, "cpu") ↔
       spec_scale_up_condition p m r now ∧ p.scale_up_cpu_threshold ≤ m.cpu_percent) ∧
    (should_scale_up p m r now = (true, "memory") ↔
       spec_scale_up_condition p m r now ∧ ¬ p.scale_up_cpu_threshold ≤ m.cpu_percent) ∧
    ((should_scale_up p m r now).1 = true ↔ spec_scale_up_condition p m r now) := by
  have hcd := cooldown_active_false_iff p now
  unfold should_scale_up spec_scale_up_condition
  split_ifs with h1 h2 h3 h4 h5
  · have h1' : p.enabled = false := by simpa using h1
    simp [h1']
  · simp [not_lt.mpr h2]
  · have hne : ¬ spec_cooldown_elapsed p now :=
      fun hel => absurd (hcd.mpr hel) (by simp [h3])
    simp [hne]
  · have hen : p.enabled = true := by simpa using h1
    have hlt : r < p.max_replicas := not_le.mp h2
    have hel : spec_cooldown_elapsed p now := hcd.mp (Bool.eq_false_iff.mpr h3)
    simp [hen, hlt, hel, h4]
  · have hen : p.enabled = true := by simpa using h1
    have hlt : r < p.max_replicas := not_le.mp h2
    have hel : spec_cooldown_elapsed p now := hcd.mp (Bool.eq_false_iff.mpr h3)
    simp [hen, hlt, hel, h4, h5]
  · simp [h4, h5]

theorem should_scale_down_cases (p : ScalingPolicy) (m : Metrics) (r : Nat) (now : ℚ) :
    (should_scale_down p m r now = (true, "both_low") ↔
       spec_scale_down_condition p m r now) ∧
    ((should_scale_down p m r now).1 = true ↔ spec_scale_down_condition p m r now) := by
  have hcd := cooldown_active_false_iff p now
  unfold should_scale_down spec_scale_down_condition
  split_ifs with h1 h2 h3 h4
  · have h1' : p.enabled = false := by simpa using h1
    simp [h1']
  · simp [not_lt.mpr h2]
  · have hne : ¬ spec_cooldown_elapsed p now :=
      fun hel => absurd (hcd.mpr hel) (by simp [h3])
    simp [hne]
  · have hen : p.enabled = true := by simpa using h1
    have hlt : p.min_replicas < r := not_le.mp h2
    have hel : spec_cooldown_elapsed p now := hcd.mp (Bool.eq_false_iff.mpr h3)
    simp [hen, hlt, hel, h4.1, h4.2]
  · have hrhs : ¬ (p.enabled = true ∧ p.min_replicas < r ∧ spec_cooldown_elapsed p now ∧
        m.cpu_percent < p.scale_down_cpu_threshold ∧
        m.memory_percent < p.scale_down_memory_threshold) := by
      rintro ⟨-, -, -, hc, hm⟩
      exact h4 ⟨hc, hm⟩
    simp [hrhs]

/-- C2: the evaluation decision is scale_up iff the policy is enabled, the
replica count is below max_replicas, the cooldown has elapsed (null
last_scaled_at always passing) and cpu or memory meets its scale-up
threshold, the trigger being cpu whenever the cpu threshold trips (cpu
wins ties) and memory otherwise; else scale_down, with trigger both_low,
iff enabled, the count is above min_replicas, the cooldown has elapsed
and both metrics are below their scale-down thresholds; else no action. -/
theorem autoscaler_decision_characterization (p : ScalingPolicy) (m : Metrics)
    (r : Nat) (now : ℚ) :
    (decide_action p m r now = ScalingDecision.scaleUp "cpu" ↔
       spec_scale_up_condition p m r now ∧ p.scale_up_cpu_threshold ≤ m.cpu_percent) ∧
    (decide_action p m r now = ScalingDecision.scaleUp "memory" ↔
       spec_scale_up_condition p m r now ∧ ¬ p.scale_up_cpu_threshold ≤ m.cpu_percent) ∧
    (decide_action p m r now = ScalingDecision.scaleDown "both_low" ↔
       ¬ spec_scale_up_condition p m r now ∧ spec_scale_down_condition p m r now) ∧
    (decide_action p m r now = ScalingDecision.noAction ↔
       ¬ spec_scale_up_condition p m r now ∧ ¬ spec_scale_down_condition p m r now) := by
  obtain ⟨hcpu, hmem, hup⟩ := should_scale_up_cases p m r now
  obtain ⟨hboth, hdown⟩ := should_scale_down_cases p m r now
  unfold decide_action
  by_cases hu : (should_scale_up p m r now).1 = true
  · have h2iff : ∀ s : String,
        (should_scale_up p m r now).2 = s ↔ should_scale_up p m r now = (true, s) := by
      intro s
      constructor
      · intro h
        rw [Prod.ext_iff]
        exact ⟨hu, h⟩
      · intro h
        rw [h]
    have hcond := hup.mp hu
    refine ⟨?_, ?_, ?_, ?_⟩
    · rw [if_pos hu]
      simp only [ScalingDecision.scaleUp.injEq]
      rw [h2iff, hcpu]
    · rw [if_pos hu]
      simp only [ScalingDecision.scaleUp.injEq]
      rw [h2iff, hmem]
    · rw [if_pos hu]
      simp [hcond]
    · rw [if_pos hu]
      simp [hcond]
  · have hnup : ¬ spec_scale_up_condition p m r now := fun hc => hu (hup.mpr hc)
    by_cases hd : (should_scale_down p m r now).1 = true
    · have hdcond := hdown.mp hd
      refine ⟨?_, ?_, ?_, ?_⟩ <;>
        rw [if_neg hu, if_pos hd] <;> simp [hnup, hdcond]
    · have hndown : ¬ spec_scale_down_condition p m r now := fun hc => hd (hdown.mpr hc)
      refine ⟨?_, ?_, ?_, ?_⟩ <;>
        rw [if_neg hu, if_neg hd] <;> simp [hnup, hndown]

theorem lt_step_preserves (N C : Nat) (s : LTState) (e : LTEvent)
    (h : lt_invariant N C s) : lt_invariant N C (lt_step N C s e) := by
  obtain ⟨h1, h2, h3, h4⟩ := h
  cases e <;> simp only [lt_step] <;> split_ifs with hg <;>
    simp_all [lt_invariant] <;> omega

theorem lt_run_invariant (N C : Nat) (events : List LTEvent) :
    lt_invariant N C (lt_run N C events) := by
  suffices h : ∀ s, lt_invariant N C s → lt_invariant N C (events.foldl (lt_step N C) s) by
    refine h lt_init ?_
    unfold lt_invariant lt_init
    simp
  induction events with
  | nil => intro s hs; exact hs
  | cons e t ih =>
      intro s hs
      exact ih _ (lt_step_preserves N C s e hs)

/-- C5: in every reachable dispatch state of a load test — hence in every
snapshot the metric sampler persists and in the terminal row — the
counters satisfy requests_completed + requests_failed ≤ requests_sent ≤
total_requests. -/
theorem loadtest_counter_invariant (N C : Nat) (events : List LTEvent) :
    (lt_run N C events).completed + (lt_run N C events).failed ≤ (lt_run N C events).sent ∧
    (lt_run N C events).sent ≤ N := by
  obtain ⟨h1, h2, h3, h4⟩ := lt_run_invariant N C events
  omega

/-- C10: for a running container with an engine handle, the harvester
reads key "memory_mb" (default 0.0) from the async driver stats dict,
whose keys are only cpu_percent and memory_usage_mb; so the collected
metrics and the persisted ResourceUsage row always carry
memory_mb = 0 and memory_gb = 0, whatever memory the driver reported. -/
theorem harvester_memory_always_zero (c : Container) (cpu mem now : ℚ)
    (hrun : c.status = ContainerStatus.running) (hid : ¬ c.container_id = none) :
    ∃ coll : CollectedMetrics,
      collect_container_metrics c (get_container_stats_async_result cpu mem) = some coll ∧
      qDictGet (get_container_stats_async_result cpu mem) "memory_mb" 0 = 0 ∧
      coll.memory_mb = 0 ∧ coll.memory_gb = 0 ∧
      (save_resource_usage c.id now coll).memory_mb = 0 ∧
      (save_resource_usage c.id now coll).memory_gb = some 0 := by
  have hcond : ¬ (c.container_id = none ∨ c.status ≠ ContainerStatus.running) := by
    push_neg
    exact ⟨hid, hrun⟩
  have hmain : collect_container_metrics c (get_container_stats_async_result cpu mem) =
      some
        { cpu_percent := cpu
          cpu_cores_used := cpu / 100
          memory_mb := 0
          memory_gb := 0
          storage_gb := (c.memory_limit : ℚ) / 1024
          network_rx_bytes := 0
          network_tx_bytes := 0 } := by
    unfold collect_container_metrics
    rw [if_neg hcond]
    simp [get_container_stats_async_result, qDictGet, List.find?]
  exact ⟨_, hmain, rfl, rfl, rfl, rfl, rfl⟩

theorem harvester_memory_always_zero_witness :
    harvestedContainer.status = ContainerStatus.running ∧
    ¬ harvestedContainer.container_id = none ∧
    (∃ coll : CollectedMetrics,
      collect_container_metrics harvestedContainer
          (get_container_stats_async_result 37 255) = some coll ∧
      qDictGet (get_container_stats_async_result 37 255) "memory_mb" 0 = 0 ∧
      coll.memory_mb = 0 ∧ coll.memory_gb = 0 ∧
      (save_resource_usage harvestedContainer.id 5 coll).memory_mb = 0 ∧
      (save_resource_usage harvestedContainer.id 5 coll).memory_gb = some 0) :=
  ⟨rfl, by decide,
   harvester_memory_always_zero harvestedContainer 37 255 5 rfl (by decide)⟩

theorem roundHalfEven_sub_le (y : ℚ) : |(roundHalfEven y : ℚ) - y| ≤ 1 / 2 := by
  have hf1 : ((⌊y⌋ : ℤ) : ℚ) ≤ y := Int.floor_le y
  have hf2 : y < ⌊y⌋ + 1 := Int.lt_floor_add_one y
  unfold roundHalfEven
  split_ifs with h1 h2 h3 <;> rw [abs_le] <;> constructor <;> push_cast at * <;> linarith

theorem round4_sub_le (x : ℚ) : |round4 x - x| ≤ 1 / 20000 := by
  have h := roundHalfEven_sub_le (x * 10000)
  unfold round4
  rw [abs_le] at h ⊢
  constructor <;> linarith

/-- C3: calculate_cost returns cpu, memory and storage costs equal to
round(c*h*rate, 4), round(m*h*rate, 4) and round(s*(h/730)*rate, 4), with
the rates taken from the stored PricingModel row for the provider or,
when absent, from the hardcoded default table; the returned total is
within 1e-4 of the exact sum c*h*rate_cpu + m*h*rate_mem +
s*(h/730)*rate_storage; in particular the aws default rates
(0.05, 0.01, 0.08) on (2, 4, 50, 10) give cpu 1.0, memory 0.4,
storage 0.0548, total 1.4548. -/
theorem calculate_cost_formula (table : List PricingModel) (c m s h : ℚ)
    (p : PricingProvider) (hc : 0 ≤ c) (hm : 0 ≤ m) (hs : 0 ≤ s) (hh : 0 ≤ h) :
    (calculate_cost table c m s h p).cpu_cost = round4 (c * h * (effective_rates table p).1) ∧
    (calculate_cost table c m s h p).memory_cost =
      round4 (m * h * (effective_rates table p).2.1) ∧
    (calculate_cost table c m s h p).storage_cost =
      round4 (s * (h / 730) * (effective_rates table p).2.2) ∧
    |(calculate_cost table c m s h p).total_cost -
        (c * h * (effective_rates table p).1 + m * h * (effective_rates table p).2.1 +
         s * (h / 730) * (effective_rates table p).2.2)| ≤ 1 / 10000 ∧
    calculate_cost [] 2 4 50 10 PricingProvider.aws =
      { cpu_cost := 1, memory_cost := 0.4, storage_cost := 0.0548,
        total_cost := 1.4548, provider := "aws" } := by
  refine ⟨rfl, rfl, rfl, ?_, ?_⟩
  · have h1 : (calculate_cost table c m s h p).total_cost =
        round4 (c * h * (effective_rates table p).1 + m * h * (effective_rates table p).2.1 +
          s * (h / 730) * (effective_rates table p).2.2) := rfl
    rw [h1]
    have h2 := round4_sub_le (c * h * (effective_rates table p).1 +
      m * h * (effective_rates table p).2.1 + s * (h / 730) * (effective_rates table p).2.2)
    rw [abs_le] at h2 ⊢
    constructor <;> linarith
  · norm_num [calculate_cost, effective_rates, get_pricing_model, DEFAULT_PRICING,
      providerValue, round4, roundHalfEven]

theorem calculate_cost_formula_witness :
    0 ≤ (2 : ℚ) ∧ 0 ≤ (4 : ℚ) ∧ 0 ≤ (50 : ℚ) ∧ 0 ≤ (10 : ℚ) ∧
    ((calculate_cost [] 2 4 50 10 PricingProvider.aws).cpu_cost =
      round4 (2 * 10 * (effective_rates [] PricingProvider.aws).1) ∧
    (calculate_cost [] 2 4 50 10 PricingProvider.aws).memory_cost =
      round4 (4 * 10 * (effective_rates [] PricingProvider.aws).2.1) ∧
    (calculate_cost [] 2 4 50 10 PricingProvider.aws).storage_cost =
      round4 (50 * (10 / 730) * (effective_rates [] PricingProvider.aws).2.2) ∧
    |(calculate_cost [] 2 4 50 10 PricingProvider.aws).total_cost -
        (2 * 10 * (effective_rates [] PricingProvider.aws).1 +
         4 * 10 * (effective_rates [] PricingProvider.aws).2.1 +
         50 * (10 / 730) * (effective_rates [] PricingProvider.aws).2.2)| ≤ 1 / 10000 ∧
    calculate_cost [] 2 4 50 10 PricingProvider.aws =
      { cpu_cost := 1, memory_cost := 0.4, storage_cost := 0.0548,
        total_cost := 1.4548, provider := "aws" }) :=
  ⟨by norm_num, by norm_num, by norm_num, by norm_num,
   calculate_cost_formula [] 2 4 50 10 PricingProvider.aws
     (by norm_num) (by norm_num) (by norm_num) (by norm_num)⟩

theorem mem_of_getLast?_usage : ∀ (l : List ResourceUsage) (a : ResourceUsage),
    l.getLast? = some a → a ∈ l := by
  intro l
  induction l with
  | nil => intro a h; simp at h
  | cons x t ih =>
    intro a h
    cases t with
    | nil => simp at h; simp [h]
    | cons y t2 =>
      rw [List.getLast?_cons_cons] at h
      exact List.mem_cons_of_mem x (ih a h)

theorem sorted_le_getLast_usage : ∀ (l : List ResourceUsage), List.Sorted tsLE l →
    ∀ x ∈ l, ∀ last, l.getLast? = some last → x.timestamp ≤ last.timestamp := by
  intro l
  induction l with
  | nil => intro _ x hx; cases hx
  | cons a t ih =>
    intro hs x hx last hlast
    rw [List.sorted_cons] at hs
    cases t with
    | nil =>
      simp at hlast hx
      rw [hx, hlast]
    | cons y t2 =>
      rw [List.getLast?_cons_cons] at hlast
      rcases List.mem_cons.mp hx with rfl | hx2
      · exact hs.1 last (mem_of_getLast?_usage _ last hlast)
      · exact ih hs.2 x hx2 last hlast

/-- C9: real-time billing over [now - hours_back, now]: with zero samples
in the window the result is the error payload and no cost is computed;
otherwise the cost is calculate_cost applied to the arithmetic mean of
cpu_cores_used and of memory_gb over the window's samples together with
the storage_gb of the most recent sample (the last row of the
ascending-ordered window, whose timestamp bounds every sample). -/
theorem real_time_billing_window (usage : List ResourceUsage) (table : List PricingModel)
    (cid : Nat) (hours_back : ℚ) (provider : PricingProvider) (now : ℚ) :
    (get_usage_history usage cid (now - hours_back * 3600) now = [] →
      calculate_real_time_billing usage table cid hours_back provider now =
        BillingOutcome.err "No usage data found for this time period" cid) ∧
    (∀ last : ResourceUsage,
      (get_usage_history usage cid (now - hours_back * 3600) now).getLast? = some last →
      (calculate_real_time_billing usage table cid hours_back provider now =
        BillingOutcome.ok
          (((get_usage_history usage cid (now - hours_back * 3600) now).map
              (fun u => u.cpu_cores_used.getD 0)).sum /
            ((get_usage_history usage cid (now - hours_back * 3600) now).length : ℚ))
          (((get_usage_history usage cid (now - hours_back * 3600) now).map
              (fun u => u.memory_gb.getD 0)).sum /
            ((get_usage_history usage cid (now - hours_back * 3600) now).length : ℚ))
          (last.storage_gb.getD 0)
          (calculate_cost table
            (((get_usage_history usage cid (now - hours_back * 3600) now).map
                (fun u => u.cpu_cores_used.getD 0)).sum /
              ((get_usage_history usage cid (now - hours_back * 3600) now).length : ℚ))
            (((get_usage_history usage cid (now - hours_back * 3600) now).map
                (fun u => u.memory_gb.getD 0)).sum /
              ((get_usage_history usage cid (now - hours_back * 3600) now).length : ℚ))
            (last.storage_gb.getD 0) hours_back provider)) ∧
      ∀ u ∈ get_usage_history usage cid (now - hours_back * 3600) now,
        u.timestamp ≤ last.timestamp) := by
  constructor
  · intro hempty
    have h2 : (get_usage_history usage cid (now - hours_back * 3600) now).getLast? = none := by
      rw [hempty]
      rfl
    simp only [calculate_real_time_billing, h2]
  · intro last hlast
    refine ⟨?_, ?_⟩
    · simp only [calculate_real_time_billing, hlast]
    · intro u hu
      exact sorted_le_getLast_usage _ (List.sorted_insertionSort tsLE _) u hu last hlast

theorem real_time_billing_window_witness :
    (get_usage_history [usageRow1, usageRow2] 7 (3600 - 1 * 3600) 3600).getLast? =
      some usageRow2 ∧
    ((calculate_real_time_billing [usageRow1, usageRow2] [] 7 1 PricingProvider.aws 3600 =
        BillingOutcome.ok
          (((get_usage_history [usageRow1, usageRow2] 7 (3600 - 1 * 3600) 3600).map
              (fun u => u.cpu_cores_used.getD 0)).sum /
            ((get_usage_history [usageRow1, usageRow2] 7 (3600 - 1 * 3600) 3600).length : ℚ))
          (((get_usage_history [usageRow1, usageRow2] 7 (3600 - 1 * 3600) 3600).map
              (fun u => u.memory_gb.getD 0)).sum /
            ((get_usage_history [usageRow1, usageRow2] 7 (3600 - 1 * 3600) 3600).length : ℚ))
          (usageRow2.storage_gb.getD 0)
          (calculate_cost []
            (((get_usage_history [usageRow1, usageRow2] 7 (3600 - 1 * 3600) 3600).map
                (fun u => u.cpu_cores_used.getD 0)).sum /
              ((get_usage_history [usageRow1, usageRow2] 7 (3600 - 1 * 3600) 3600).length : ℚ))
            (((get_usage_history [usageRow1, usageRow2] 7 (3600 - 1 * 3600) 3600).map
                (fun u => u.memory_gb.getD 0)).sum /
              ((get_usage_history [usageRow1, usageRow2] 7 (3600 - 1 * 3600) 3600).length : ℚ))
            (usageRow2.storage_gb.getD 0) 1 PricingProvider.aws)) ∧
      ∀ u ∈ get_usage_history [usageRow1, usageRow2] 7 (3600 - 1 * 3600) 3600,
        u.timestamp ≤ usageRow2.timestamp) := by
  have h0 : ((3600 : ℚ) - 1 * 3600) = 0 := by norm_num
  have h1 : (get_usage_history [usageRow1, usageRow2] 7 (3600 - 1 * 3600) 3600).getLast? =
      some usageRow2 := by
    rw [h0]
    decide
  exact ⟨h1,
    (real_time_billing_window [usageRow1, usageRow2] [] 7 1 PricingProvider.aws 3600).2
      usageRow2 h1⟩

/-- C8: for every stats-command output string — empty, multi-line,
ANSI-wrapped or arbitrarily malformed — and for every behavior of the
json and float library parsers, get_container_stats returns a SyncStats
record with cpu_percent and memory_mb fields: when any stage of the try
body fails (modelled by a none body result) both fields are 0, when the
body succeeds its parsed record is returned unchanged, and a
whitespace-only output short-circuits to the zero record; no exception
reaches the caller — every outcome is one of these returned records. -/
theorem stats_parse_never_raises (jl : String → Option (List (String × String)))
    (pf : String → Option ℚ) (stdout : String) :
    (get_container_stats_body jl pf stdout = none →
      get_container_stats jl pf stdout = { cpu_percent := 0, memory_mb := 0 }) ∧
    (∀ r, get_container_stats_body jl pf stdout = some r →
      get_container_stats jl pf stdout = r) ∧
    (pyStrip stdout = "" →
      get_container_stats jl pf stdout = { cpu_percent := 0, memory_mb := 0 }) := by
  refine ⟨?_, ?_, ?_⟩
  · intro h
    unfold get_container_stats
    rw [h]
  · intro r h
    unfold get_container_stats
    rw [h]
  · intro h
    unfold get_container_stats get_container_stats_body
    rw [h]
    rfl

theorem stats_parse_never_raises_witness :
    get_container_stats_body (fun _ => none) (fun _ => none) "garbage" = none ∧
    get_container_stats (fun _ => none) (fun _ => none) "garbage" =
      { cpu_percent := 0, memory_mb := 0 } :=
  ⟨by decide,
   (stats_parse_never_raises (fun _ => none) (fun _ => none) "garbage").1 (by decide)⟩

theorem get_current_replica_count_fails (db : ScalingDB) (container_id : Nat) :
    get_current_replica_count db container_id = none := rfl

theorem evaluate_policy_noop (db : ScalingDB) (p : ScalingPolicy)
    (metrics : Option Metrics) (now : ℚ) : evaluate_policy db p metrics now = (db, p) := by
  cases metrics with
  | none => rfl
  | some m =>
    unfold evaluate_policy
    rw [get_current_replica_count_fails]

theorem scale_up_noop (db : ScalingDB) (p : ScalingPolicy) (trig : String) (v now : ℚ) :
    scale_up db p trig v now = (db, p, false) := by
  unfold scale_up
  rw [get_current_replica_count_fails]

theorem scale_down_noop (db : ScalingDB) (p : ScalingPolicy) (trig : String) (v now : ℚ) :
    scale_down db p trig v now = (db, p, false) := by
  unfold scale_down
  rw [get_current_replica_count_fails]

theorem evaluate_all_policies_noop (db : ScalingDB) (policies : List ScalingPolicy)
    (metricsOf : Nat → Option Metrics) (now : ℚ) :
    evaluate_all_policies db policies metricsOf now = db := by
  unfold evaluate_all_policies
  generalize policies_selected_for_evaluation policies = l
  induction l generalizing db with
  | nil => rfl
  | cons p t ih =>
    rw [List.foldl_cons, evaluate_policy_noop]
    exact ih db

/-- C1 (refuted by the code): no evaluation pass ever creates a replica,
appends a ScalingEvent or sets last_scaled_at — whatever the policy,
metrics and database.  The Container ORM class declares no parent_id
attribute, so get_current_replica_count raises AttributeError at
autoscaler_service.py 28; evaluate_policy aborts at line 218 (swallowed
at 236) before any decision is acted on, and scale_up / scale_down
always roll back and return False. -/
theorem evaluate_policy_creates_nothing (db : ScalingDB) (p : ScalingPolicy)
    (metrics : Option Metrics) (trig : String) (v now : ℚ) :
    evaluate_policy db p metrics now = (db, p) ∧
    scale_up db p trig v now = (db, p, false) ∧
    scale_down db p trig v now = (db, p, false) :=
  ⟨evaluate_policy_noop db p metrics now, scale_up_noop db p trig v now,
   scale_down_noop db p trig v now⟩

/-- C6 (refuted by the code): scale_up never creates a replica record and
never assigns a port — the AttributeError from the missing
Container.parent_id attribute (and the invalid parent_id constructor
keyword) makes every call roll back and return False, leaving the
containers table unchanged; in particular port uniqueness is preserved
only because no replica port is ever assigned, not by the claimed
parent.port + n scheme. -/
theorem scale_up_never_assigns_port (db : ScalingDB) (p : ScalingPolicy)
    (trig : String) (v now : ℚ) :
    scale_up db p trig v now = (db, p, false) ∧
    (scale_up db p trig v now).1.containers = db.containers ∧
    (spec_ports_unique db.containers →
      spec_ports_unique (scale_up db p trig v now).1.containers) := by
  have h := scale_up_noop db p trig v now
  refine ⟨h, by rw [h], fun hu => by rw [h]; exact hu⟩

theorem scale_up_never_assigns_port_witness :
    spec_ports_unique witnessDB.containers ∧
    spec_ports_unique (scale_up witnessDB witnessPolicy "cpu" 90 0).1.containers := by
  have h1 : spec_ports_unique witnessDB.containers := by
    unfold spec_ports_unique
    decide
  exact ⟨h1, (scale_up_never_assigns_port witnessDB witnessPolicy "cpu" 90 0).2.2 h1⟩

/-- C7 counterexample: user 1 POSTs /autoscaling/evaluate-now while user 2
owns an enabled policy; the pass run for user 1 selects and evaluates
exactly the enabled policies of every user, so user 2's policy is among
the policies evaluated — refuting the claim that policies belonging to
other users are not evaluated.  (Each evaluation is a no-op in this
snapshot, so the only observable payload is the success status.) -/
theorem evaluate_now_foreign_policy_counterexample :
    otherUserPolicy.user_id = 2 ∧
    otherUserPolicy ∈ policies_selected_for_evaluation [witnessPolicy, otherUserPolicy] ∧
    (evaluate_policies_now multiUserDB [witnessPolicy, otherUserPolicy]
        multiUserMetricsOf 0 1).1 =
      (policies_selected_for_evaluation [witnessPolicy, otherUserPolicy]).foldl
        (fun s p => (evaluate_policy s p (multiUserMetricsOf p.container_id) 0).1)
        multiUserDB ∧
    (evaluate_policies_now multiUserDB [witnessPolicy, otherUserPolicy]
        multiUserMetricsOf 0 1).2.status = "success" := by
  refine ⟨rfl, ?_, rfl, rfl⟩
  decide

/-- C7 amended: POST /autoscaling/evaluate-now runs one evaluation pass
immediately over all enabled scaling policies of every user — the route
never passes the caller to the service and the selection filters only on
enabled, so the result is independent of the calling user — and returns
a payload with status success; in this snapshot every per-policy
evaluation aborts (AttributeError on the missing Container.parent_id),
so the pass returns the database unchanged. -/
theorem evaluate_now_runs_all_enabled (db : ScalingDB) (policies : List ScalingPolicy)
    (metricsOf : Nat → Option Metrics) (now : ℚ) (uid uid' : Nat) :
    (evaluate_policies_now db policies metricsOf now uid).2.status = "success" ∧
    (evaluate_policies_now db policies metricsOf now uid).1 =
      (policies.filter (fun p => p.enabled)).foldl
        (fun s p => (evaluate_policy s p (metricsOf p.container_id) now).1) db ∧
    evaluate_policies_now db policies metricsOf now uid =
      evaluate_policies_now db policies metricsOf now uid' ∧
    (evaluate_policies_now db policies metricsOf now uid).1 = db :=
  ⟨rfl, rfl, rfl, evaluate_all_policies_noop db policies metricsOf now⟩
